import Mathlib

/-!
Verification of the HS-Code-Predictor classification core.

The definitions below are shallow embeddings of the TypeScript sources:
  * `src/src/data/hsCodes.ts` (catalog and `findMatchingHSCodes`),
  * `src/src/utils/mockAnalysis.ts` (`analyzeProduct` keyword path and
    `getFallbackPredictions`),
  * `src/supabase/functions/enhanced-prediction/index.ts`
    (`combineAndRankCandidates`, `calculateOverallConfidence`,
    `determineHumanReviewNeed`, request validation).
JavaScript numbers used for confidences are modelled as `Rat` (all the
arithmetic involved is exact), scores as `Nat`, and `Math.round` as
`Int.floor (q + 1/2)`.  JavaScript string primitives (`toLowerCase`,
`includes`, `split`) are modelled explicitly on `Char` lists.
-/

/-! ## JavaScript string primitives -/

/-- `s.toLowerCase()` (ASCII range, which covers every string in the sources). -/
def strLower (s : String) : String := String.mk (s.data.map Char.toLower)

/-- Whether `pre` is a prefix of `l` (character-wise). -/
def isPrefixList : List Char → List Char → Bool
  | [], _ => true
  | _ :: _, [] => false
  | a :: as, b :: bs => a == b && isPrefixList as bs

/-- Whether `needle` occurs contiguously inside `hay`. -/
def includesList : List Char → List Char → Bool
  | [], needle => needle.isEmpty
  | h :: t, needle => isPrefixList needle (h :: t) || includesList t needle

/-- `hay.includes(needle)` for JavaScript strings. -/
def strIncludes (hay needle : String) : Bool := includesList hay.data needle.data

/-- `s.split(sep)` with a single-character separator: keeps every empty field,
exactly as `String.prototype.split` with a string separator does. -/
def splitCharAux (sep : Char) (acc : List Char) : List Char → List (List Char)
  | [] => [acc]
  | c :: cs =>
    if c == sep then acc :: splitCharAux sep [] cs
    else splitCharAux sep (acc ++ [c]) cs

/-- `s.split(' ')`. -/
def jsSplitSpace (s : String) : List String :=
  (splitCharAux ' ' [] s.data).map String.mk

/-- The separator class of the regex `[\s&]+` used in `findMatchingHSCodes`. -/
def isSepChar (c : Char) : Bool :=
  c == ' ' || c == '\t' || c == '\n' || c == '\r' || c == '&'

/-- `s.split(/[\s&]+/)`: fields between maximal separator runs (a leading or
trailing run yields one empty field, interior runs none).  The `fuel`
argument makes the recursion structural; it is always called with enough
fuel for the whole string. -/
def splitRunsFuel : Nat → List Char → List Char → List (List Char)
  | 0, acc, _ => [acc]
  | _ + 1, acc, [] => [acc]
  | fuel + 1, acc, c :: cs =>
    if isSepChar c then acc :: splitRunsFuel fuel [] (cs.dropWhile isSepChar)
    else splitRunsFuel fuel (acc ++ [c]) cs

/-- `s.split(/[\s&]+/)` on a string. -/
def jsSplitRuns (s : String) : List String :=
  (splitRunsFuel (s.data.length + 1) [] s.data).map String.mk

/-- `Math.round`: round half away from zero upwards, i.e. `⌊q + 1/2⌋`. -/
def jsRound (q : ℚ) : Int := ⌊q + 1 / 2⌋

/-! ## A stable descending insertion sort

`Array.prototype.sort` with comparator `(a, b) => key(b) - key(a)` is a
stable descending sort by `key` (sort stability is guaranteed by the
ECMAScript specification).  It is modelled by insertion sort: an element is
inserted in front of the first element whose key is not larger, which keeps
equal-key elements in their original relative order. -/

/-- Insert `x` into `l` in front of the first element with key `≤ key x`. -/
def insertSortedDesc {α β : Type} [LinearOrder β] (key : α → β) (x : α) :
    List α → List α
  | [] => [x]
  | y :: ys => if key y ≤ key x then x :: y :: ys else y :: insertSortedDesc key x ys

/-- Stable descending sort by `key`. -/
def sortDescBy {α β : Type} [LinearOrder β] (key : α → β) : List α → List α
  | [] => []
  | x :: xs => insertSortedDesc key x (sortDescBy key xs)

/-! ## The catalog (`hsCodeDatabase` in `src/src/data/hsCodes.ts`) -/

/-- One catalog entry of the local HS-code database. -/
structure HSCode where
  code : String
  description : String
  category : String
  keywords : List String
  tariffRate : Option String
deriving DecidableEq

/-- A placeholder entry (used only as a `headD` default in closed statements). -/
def emptyHSCode : HSCode := { code := "", description := "", category := "", keywords := [], tariffRate := none }

/-- The full static catalog, transcribed from `hsCodeDatabase`. -/
def hsCodeDatabase : List HSCode := [
  { code := "6912.00.48",
    description := "Ceramic tableware, kitchenware, other household articles and toilet articles",
    category := "Ceramics & Porcelain",
    keywords := ["ceramic", "porcelain", "mug", "cup", "tableware", "kitchenware", "household", "dishes", "bowl", "plate"],
    tariffRate := some "8.5%" },
  { code := "6911.10.38",
    description := "Porcelain or china tableware and kitchenware",
    category := "Ceramics & Porcelain",
    keywords := ["porcelain", "china", "tableware", "kitchenware", "cup", "mug", "plate", "bowl", "fine", "dinnerware"],
    tariffRate := some "8%" },
  { code := "6914.90.90",
    description := "Other ceramic articles",
    category := "Ceramics & Porcelain",
    keywords := ["ceramic", "porcelain", "decorative", "ornamental", "figurine", "vase", "pottery"],
    tariffRate := some "8.5%" },
  { code := "6109.10.00",
    description := "T-shirts, singlets and other vests, knitted or crocheted, of cotton",
    category := "Textiles & Clothing",
    keywords := ["t-shirt", "shirt", "vest", "cotton", "knitted", "clothing", "apparel", "tee", "top"],
    tariffRate := some "16.5%" },
  { code := "6104.62.20",
    description := "Women\x27s or girls\x27 trousers, bib and brace overalls, breeches and shorts, of cotton",
    category := "Textiles & Clothing",
    keywords := ["trousers", "pants", "women", "girls", "cotton", "shorts", "breeches", "jeans", "leggings"],
    tariffRate := some "16.6%" },
  { code := "6110.20.20",
    description := "Sweaters, pullovers, sweatshirts, waistcoats and similar articles, knitted or crocheted, of cotton",
    category := "Textiles & Clothing",
    keywords := ["sweater", "pullover", "sweatshirt", "hoodie", "cardigan", "cotton", "knitted", "jumper"],
    tariffRate := some "16.5%" },
  { code := "6203.42.40",
    description := "Men\x27s or boys\x27 trousers, bib and brace overalls, breeches and shorts, of cotton",
    category := "Textiles & Clothing",
    keywords := ["men", "boys", "trousers", "pants", "cotton", "shorts", "jeans", "chinos", "khakis"],
    tariffRate := some "16.6%" },
  { code := "4202.12.80",
    description := "Handbags, with or without shoulder strap, including those without handle",
    category := "Leather Goods",
    keywords := ["handbag", "purse", "bag", "shoulder", "strap", "handle", "leather", "tote", "clutch"],
    tariffRate := some "17.6%" },
  { code := "4202.22.80",
    description := "Handbags of textile materials",
    category := "Leather Goods",
    keywords := ["handbag", "purse", "bag", "textile", "fabric", "canvas", "nylon", "polyester"],
    tariffRate := some "17.6%" },
  { code := "4203.29.50",
    description := "Gloves, mittens and mitts, of leather or of composition leather",
    category := "Leather Goods",
    keywords := ["gloves", "mittens", "mitts", "leather", "hands", "winter"],
    tariffRate := some "12.6%" },
  { code := "4202.11.00",
    description := "Trunks, suitcases, vanity cases, executive cases, briefcases, school satchels and similar containers, with outer surface of leather",
    category := "Leather Goods",
    keywords := ["wallet", "billfold", "bifold", "trifold", "leather", "genuine", "executive", "briefcase"],
    tariffRate := some "20%" },
  { code := "4202.92.45",
    description := "Travel, sports and similar bags with outer surface of textile materials",
    category := "Leather Goods",
    keywords := ["travel", "sports", "bag", "luggage", "duffel", "gym", "backpack", "textile"],
    tariffRate := some "17.6%" },
  { code := "6404.19.39",
    description := "Other footwear with outer soles of rubber, plastics, leather",
    category := "Footwear",
    keywords := ["shoes", "footwear", "boots", "sandals", "rubber", "leather", "sneakers", "athletic"],
    tariffRate := some "8.5%" },
  { code := "6403.91.60",
    description := "Other footwear with outer soles of leather",
    category := "Footwear",
    keywords := ["dress", "shoes", "leather", "formal", "oxford", "loafer", "boot", "heel"],
    tariffRate := some "8.5%" },
  { code := "6404.11.90",
    description := "Sports footwear; tennis shoes, basketball shoes, gym shoes, training shoes and the like",
    category := "Footwear",
    keywords := ["sports", "athletic", "tennis", "basketball", "gym", "training", "running", "sneakers"],
    tariffRate := some "20%" },
  { code := "7113.19.50",
    description := "Articles of jewelry and parts thereof, of precious metal other than silver",
    category := "Jewelry & Precious Items",
    keywords := ["jewelry", "necklace", "bracelet", "ring", "gold", "precious", "metal", "earrings"],
    tariffRate := some "5.5%" },
  { code := "7113.11.50",
    description := "Articles of jewelry and parts thereof, of silver, whether or not plated or clad",
    category := "Jewelry & Precious Items",
    keywords := ["jewelry", "silver", "necklace", "bracelet", "ring", "925", "sterling", "earrings"],
    tariffRate := some "6.5%" },
  { code := "7117.90.90",
    description := "Imitation jewelry, other",
    category := "Jewelry & Precious Items",
    keywords := ["imitation", "costume", "jewelry", "fashion", "accessory", "beads", "fake", "plated"],
    tariffRate := some "11%" },
  { code := "8517.12.00",
    description := "Telephones for cellular networks or for other wireless networks",
    category := "Electronics & Electrical",
    keywords := ["phone", "smartphone", "mobile", "cellular", "wireless", "iphone", "android"],
    tariffRate := some "Free" },
  { code := "8471.30.01",
    description := "Portable automatic data processing machines, weighing not more than 10 kg",
    category := "Electronics & Electrical",
    keywords := ["laptop", "notebook", "computer", "portable", "macbook", "chromebook", "tablet"],
    tariffRate := some "Free" },
  { code := "8543.70.96",
    description := "Other electrical machines and apparatus, having individual functions",
    category := "Electronics & Electrical",
    keywords := ["electronic", "electrical", "device", "machine", "equipment", "gadget"],
    tariffRate := some "2.6%" },
  { code := "8518.30.20",
    description := "Headphones and earphones, whether or not combined with a microphone",
    category := "Electronics & Electrical",
    keywords := ["headphones", "earphones", "earbuds", "headset", "audio", "wireless", "bluetooth"],
    tariffRate := some "Free" },
  { code := "9401.61.40",
    description := "Other seats, with wooden frames, upholstered",
    category := "Furniture & Home",
    keywords := ["chair", "seat", "wooden", "upholstered", "furniture", "dining", "office"],
    tariffRate := some "Free" },
  { code := "9403.60.80",
    description := "Other wooden furniture",
    category := "Furniture & Home",
    keywords := ["wooden", "furniture", "table", "desk", "cabinet", "shelf", "bookcase", "dresser"],
    tariffRate := some "Free" },
  { code := "9404.90.95",
    description := "Other articles of bedding and similar furnishing",
    category := "Furniture & Home",
    keywords := ["bedding", "pillow", "cushion", "blanket", "comforter", "sheet", "mattress"],
    tariffRate := some "9%" },
  { code := "3923.30.00",
    description := "Bottles, flasks and similar articles, of plastics",
    category := "Plastics & Containers",
    keywords := ["bottle", "flask", "plastic", "container", "water", "drink", "beverage"],
    tariffRate := some "3%" },
  { code := "3926.90.99",
    description := "Other articles of plastics and articles of other materials",
    category := "Plastics & Polymers",
    keywords := ["plastic", "polymer", "accessories", "household", "container", "storage"],
    tariffRate := some "3.1%" },
  { code := "7013.49.20",
    description := "Other glassware of a kind used for table, kitchen, toilet, office, indoor decoration",
    category := "Glass & Glassware",
    keywords := ["glass", "glassware", "table", "kitchen", "decoration", "vase", "bowl", "cup"],
    tariffRate := some "28.5%" },
  { code := "7018.90.50",
    description := "Glass beads, imitation pearls, imitation precious stones and similar articles",
    category := "Glass & Ceramics",
    keywords := ["glass", "beads", "imitation", "pearls", "decorative", "ornament"],
    tariffRate := some "6%" },
  { code := "9503.00.00",
    description := "Tricycles, scooters, pedal cars and similar wheeled toys; dolls",
    category := "Toys & Games",
    keywords := ["toy", "game", "children", "play", "doll", "tricycle", "scooter", "kids"],
    tariffRate := some "Free" },
  { code := "9506.91.00",
    description := "Articles and equipment for general physical exercise, gymnastics, athletics",
    category := "Sports & Recreation",
    keywords := ["exercise", "gym", "fitness", "athletic", "sports", "equipment", "workout"],
    tariffRate := some "Free" },
  { code := "3304.99.50",
    description := "Other beauty or make-up preparations",
    category := "Cosmetics & Beauty",
    keywords := ["cosmetic", "makeup", "beauty", "skincare", "lotion", "cream", "foundation"],
    tariffRate := some "Free" },
  { code := "3303.00.30",
    description := "Perfumes and toilet waters",
    category := "Cosmetics & Beauty",
    keywords := ["perfume", "fragrance", "cologne", "scent", "toilet", "water", "spray"],
    tariffRate := some "Free" },
  { code := "2005.99.85",
    description := "Other vegetables prepared or preserved otherwise than by vinegar or acetic acid",
    category := "Food & Beverages",
    keywords := ["vegetables", "preserved", "canned", "food", "jarred", "pickled"],
    tariffRate := some "14.9%" },
  { code := "2009.90.80",
    description := "Mixtures of fruit or vegetable juices",
    category := "Food & Beverages",
    keywords := ["juice", "fruit", "vegetable", "beverage", "drink", "mixed", "blend"],
    tariffRate := some "Free" },
  { code := "7326.90.85",
    description := "Other articles of iron or steel",
    category := "Metals & Hardware",
    keywords := ["iron", "steel", "metal", "hardware", "tool", "equipment", "bracket", "fastener"],
    tariffRate := some "2.9%" },
  { code := "7323.99.90",
    description := "Other table, kitchen or other household articles of iron or steel",
    category := "Metals & Hardware",
    keywords := ["kitchen", "household", "iron", "steel", "utensil", "cookware", "pot", "pan"],
    tariffRate := some "3.4%" },
  { code := "4823.90.86",
    description := "Other paper and paperboard, cut to size or shape; other articles of paper",
    category := "Paper & Stationery",
    keywords := ["paper", "cardboard", "box", "packaging", "stationery", "craft", "notebook"],
    tariffRate := some "Free" },
  { code := "4802.56.60",
    description := "Other paper and paperboard, not containing fibers",
    category := "Paper & Stationery",
    keywords := ["paper", "writing", "printing", "office", "copy", "bond"],
    tariffRate := some "Free" },
  { code := "9701.10.00",
    description := "Paintings, drawings and pastels, executed entirely by hand",
    category := "Art & Collectibles",
    keywords := ["painting", "art", "drawing", "artwork", "canvas", "handmade", "original"],
    tariffRate := some "Free" },
  { code := "9705.00.00",
    description := "Collections and collectors\x27 pieces of archaeological, historical or ethnographic interest",
    category := "Art & Collectibles",
    keywords := ["collectible", "antique", "historical", "archaeological", "ethnographic", "vintage"],
    tariffRate := some "Free" }
]


/-! ## The keyword matcher (`findMatchingHSCodes` in `src/src/data/hsCodes.ts`) -/

/-- The fixed list of exact product-type keywords (50 points each). -/
def productTypeKeywords : List String :=
  ["mug", "cup", "bowl", "plate", "wallet", "purse", "handbag", "shoe", "boot", "shirt", "pants"]

/-- The fixed list of material keywords (20 points each). -/
def materialKeywords : List String :=
  ["ceramic", "porcelain", "leather", "cotton", "plastic", "glass", "wood", "metal", "fabric", "textile"]

/-- The combined exclusion list used to select the general keywords of an
entry (everything not product-type and not material). -/
def generalExclusionKeywords : List String :=
  ["mug", "cup", "bowl", "plate", "wallet", "purse", "handbag", "shoe", "boot", "shirt", "pants",
   "ceramic", "porcelain", "leather", "cotton", "plastic", "glass", "wood", "metal", "fabric", "textile"]

/-- The raw match score of one catalog entry against the (already
lower-cased) descriptor fields: the four sequential scoring loops of
`findMatchingHSCodes`. -/
def matchScore (e : HSCode) (titleLower descLower categoryLower materialsLower : String) : Nat :=
  let s1 := productTypeKeywords.foldl
    (fun s kw =>
      if decide (kw ∈ e.keywords) &&
          (strIncludes titleLower kw || strIncludes descLower kw) then s + 50 else s) 0
  let s2 :=
    if materialsLower.data.isEmpty then s1
    else e.keywords.foldl
      (fun s kw =>
        if decide (strLower kw ∈ materialKeywords) &&
            strIncludes materialsLower (strLower kw) then s + 20 else s) s1
  let s3 := (jsSplitRuns categoryLower).foldl
    (fun s cw =>
      if cw.length > 3 then
        (jsSplitRuns (strLower e.category)).foldl
          (fun s2 hw =>
            if decide (cw = hw) || (decide (cw.length > 5) && strIncludes hw cw)
            then s2 + 10 else s2) s
      else s) s2
  let s4 := (e.keywords.filter (fun k => !(decide (k ∈ generalExclusionKeywords)))).foldl
    (fun s kw =>
      if decide (kw.length > 3) && strIncludes titleLower (strLower kw) then s + 5 else s) s3
  s4

/-- How many product-type keywords of the fixed list fire for entry `e`. -/
def ptCount (e : HSCode) (titleLower descLower : String) : Nat :=
  productTypeKeywords.countP
    (fun kw => decide (kw ∈ e.keywords) && (strIncludes titleLower kw || strIncludes descLower kw))

/-- How many material keywords of entry `e` fire against the materials field. -/
def matCount (e : HSCode) (materialsLower : String) : Nat :=
  if materialsLower.data.isEmpty then 0
  else e.keywords.countP
    (fun kw => decide (strLower kw ∈ materialKeywords) && strIncludes materialsLower (strLower kw))

/-- How many category-word pairs fire for entry `e`. -/
def catCount (e : HSCode) (categoryLower : String) : Nat :=
  ((jsSplitRuns categoryLower).map
    (fun cw =>
      if cw.length > 3 then
        (jsSplitRuns (strLower e.category)).countP
          (fun hw => decide (cw = hw) || (decide (cw.length > 5) && strIncludes hw cw))
      else 0)).sum

/-- How many general keywords of entry `e` fire against the title. -/
def genCount (e : HSCode) (titleLower : String) : Nat :=
  (e.keywords.filter (fun k => !(decide (k ∈ generalExclusionKeywords)))).countP
    (fun kw => decide (kw.length > 3) && strIncludes titleLower (strLower kw))

/-- One scored catalog entry (`{ hsCode, matchScore }` in the source; the
`matchDetails` debug strings are only logged and are not modelled). -/
structure ScoredEntry where
  hsCode : HSCode
  matchScore : Nat
deriving DecidableEq

/-- The scored catalog (`candidateMatches` in the source). -/
def scoredCatalog (titleLower descLower categoryLower materialsLower : String) : List ScoredEntry :=
  hsCodeDatabase.map
    (fun e => { hsCode := e, matchScore := matchScore e titleLower descLower categoryLower materialsLower })

/-- Scored entries reaching the floor of 20, sorted descending by score
(ties keep catalog order, as the stable JS sort does). -/
def rankedScored (titleLower descLower categoryLower materialsLower : String) : List ScoredEntry :=
  sortDescBy (fun i => i.matchScore)
    ((scoredCatalog titleLower descLower categoryLower materialsLower).filter
      (fun i => decide (20 ≤ i.matchScore)))

/-- `findMatchingHSCodes(title, description, category, materials)`: lower-case
the inputs, score the catalog, filter by the floor of 20, sort descending,
keep the top 5, return the entries. -/
def findMatchingHSCodes (title description category : String) (materials : Option String) : List HSCode :=
  let titleLower := strLower title
  let descLower := strLower description
  let categoryLower := strLower category
  let materialsLower := strLower (materials.getD "")
  ((rankedScored titleLower descLower categoryLower materialsLower).take 5).map (fun i => i.hsCode)

/-! ## The local analysis pipeline (`analyzeProduct` in `src/src/utils/mockAnalysis.ts`) -/

/-- The product descriptor (`ProductData`); `image : Bool` models the
presence of the `File | null` field. -/
structure ProductData where
  title : String
  description : String
  category : String
  categoryId : Option String
  materials : String
  image : Bool
deriving DecidableEq

/-- A final prediction (`HSCodePrediction`). -/
structure HSCodePrediction where
  code : String
  description : String
  confidence : Int
  category : String
  categoryId : Option String
  tariffRate : Option String
deriving DecidableEq

/-- The per-entry confidence of the enhanced keyword-matching branch of
`analyzeProduct` (the branch taken when no collaborator contributed):
`90 − 8·index` plus material/title/category/description/image bonuses,
clamped by `Math.min(95, Math.max(35, ·))`. -/
def keywordConfidence (pd : ProductData) (e : HSCode) (index : Nat) : Int :=
  let titleWords := jsSplitSpace (strLower pd.title)
  let materialWords := jsSplitSpace (strLower pd.materials)
  let base0 : Int := 90 - 8 * (index : Int)
  let materialMatches : Nat := e.keywords.countP
    (fun kw => materialWords.any
      (fun w => strIncludes w (strLower kw) || strIncludes (strLower kw) w))
  let base1 := if materialMatches > 0 then base0 + (materialMatches : Int) * 5 else base0
  let titleMatches : Nat := e.keywords.countP
    (fun kw => titleWords.any
      (fun w => strIncludes w (strLower kw) || strIncludes (strLower kw) w))
  let base2 := if titleMatches > 0 then base1 + (titleMatches : Int) * 3 else base1
  let base3 :=
    if !pd.category.data.isEmpty &&
        strIncludes (strLower e.category) ((jsSplitSpace (strLower pd.category)).headD "")
    then base2 + 5 else base2
  let base4 := if pd.description.length > 150 then base3 + 3 else base3
  let base5 := if pd.description.length > 300 then base4 + 2 else base4
  let base6 := if pd.image then base5 + 8 else base5
  min 95 (max 35 base6)

/-- The keyword-matching predictions of `analyzeProduct` (collaborators
contributing nothing): every matched entry mapped with its position-based
confidence. -/
def keywordPredictions (pd : ProductData) : List HSCodePrediction :=
  (findMatchingHSCodes pd.title pd.description pd.category (some pd.materials)).enum.map
    (fun ie =>
      { code := ie.2.code
        description := ie.2.description
        confidence := keywordConfidence pd ie.2 ie.1
        category := ie.2.category
        categoryId := pd.categoryId
        tariffRate := ie.2.tariffRate })

/-! ## The fallback policy (`getFallbackPredictions` in `mockAnalysis.ts`) -/

/-- Ceramic / porcelain rule condition (first in priority). -/
def ceramicCond (pd : ProductData) : Bool :=
  let title := strLower pd.title
  let description := strLower pd.description
  let materials := strLower pd.materials
  strIncludes materials "porcelain" || strIncludes materials "ceramic" ||
  strIncludes title "mug" || strIncludes title "cup" || strIncludes title "bowl" ||
  strIncludes description "ceramic" || strIncludes description "porcelain"

/-- Textile / clothing rule condition (second in priority). -/
def textileCond (pd : ProductData) : Bool :=
  let title := strLower pd.title
  let materials := strLower pd.materials
  let category := strLower pd.category
  strIncludes materials "cotton" || strIncludes materials "fabric" || strIncludes materials "textile" ||
  strIncludes category "clothing" || strIncludes category "apparel" ||
  strIncludes title "shirt" || strIncludes title "pants" || strIncludes title "dress"

/-- Electronics rule condition (third in priority). -/
def electronicsCond (pd : ProductData) : Bool :=
  let title := strLower pd.title
  let description := strLower pd.description
  let category := strLower pd.category
  strIncludes category "electronic" || strIncludes category "tech" ||
  strIncludes title "phone" || strIncludes title "computer" || strIncludes title "device" ||
  strIncludes description "electronic" || strIncludes description "digital"

/-- Home & garden rule condition (fourth in priority). -/
def homeCond (pd : ProductData) : Bool :=
  let title := strLower pd.title
  let description := strLower pd.description
  let category := strLower pd.category
  strIncludes category "home" || strIncludes category "garden" || strIncludes category "furniture" ||
  strIncludes title "furniture" || strIncludes title "decor" || strIncludes description "household"

/-- The hardcoded ceramics fallback candidate. -/
def fallbackRuleCeramic (pd : ProductData) : HSCodePrediction :=
  { code := "6912.00.48", description := "Ceramic tableware, kitchenware, other household articles",
    confidence := 80, category := "Ceramics & Porcelain", categoryId := pd.categoryId,
    tariffRate := some "8.5%" }

/-- The hardcoded apparel fallback candidate. -/
def fallbackRuleTextile (pd : ProductData) : HSCodePrediction :=
  { code := "6109.10.00", description := "T-shirts, singlets and other vests, knitted or crocheted, of cotton",
    confidence := 70, category := "Textiles & Clothing", categoryId := pd.categoryId,
    tariffRate := some "16.5%" }

/-- The hardcoded electronics fallback candidate. -/
def fallbackRuleElectronics (pd : ProductData) : HSCodePrediction :=
  { code := "8543.70.96", description := "Other electrical machines and apparatus, having individual functions",
    confidence := 65, category := "Electronics & Electrical", categoryId := pd.categoryId,
    tariffRate := some "2.6%" }

/-- The hardcoded furniture fallback candidate. -/
def fallbackRuleHome (pd : ProductData) : HSCodePrediction :=
  { code := "9403.60.80", description := "Other wooden furniture",
    confidence := 60, category := "Furniture & Home", categoryId := pd.categoryId,
    tariffRate := some "Free" }

/-- The generic fallback candidate. -/
def fallbackRuleGeneric (pd : ProductData) : HSCodePrediction :=
  { code := "3926.90.99", description := "Other articles of plastics and articles of other materials",
    confidence := 25, category := "General Merchandise", categoryId := pd.categoryId,
    tariffRate := some "3.1%" }

/-- `getFallbackPredictions`: the five descriptor-text rules in fixed
priority order, each returning exactly one hardcoded candidate. -/
def getFallbackPredictions (pd : ProductData) : List HSCodePrediction :=
  if ceramicCond pd then [fallbackRuleCeramic pd]
  else if textileCond pd then [fallbackRuleTextile pd]
  else if electronicsCond pd then [fallbackRuleElectronics pd]
  else if homeCond pd then [fallbackRuleHome pd]
  else [fallbackRuleGeneric pd]

/-- The final step of `analyzeProduct`: if no predictions were produced,
substitute the fallback predictions, then keep the top 5. -/
def finalizePredictions (pd : ProductData) (predictions : List HSCodePrediction) : List HSCodePrediction :=
  (if predictions.isEmpty then getFallbackPredictions pd else predictions).take 5

/-- `analyzeProduct` when every collaborator contributed nothing: keyword
matching followed by the fallback guard. -/
def analyzeLocal (pd : ProductData) : List HSCodePrediction :=
  finalizePredictions pd (keywordPredictions pd)

/-! ## The candidate combiner
(`combineAndRankCandidates` in `supabase/functions/enhanced-prediction/index.ts`) -/

/-- One combiner candidate (`PredictionCandidate`); `tariffInfo` is an
opaque payload carried through unchanged. -/
structure PredictionCandidate where
  code : String
  description : String
  confidence : ℚ
  reasoning : String
  category : Option String
  tariffInfo : Option String := none
  officialSource : Option String := none
  isOfficialMatch : Bool := false
deriving DecidableEq

/-- One semantic-analysis match as returned by the Gemini collaborator;
optional fields model absent JSON properties. -/
structure SemanticMatch where
  code : String
  description : Option String
  confidence : Option ℚ
  reasoning : Option String
  category : Option String
deriving DecidableEq

/-- The semantic-analysis response (`semanticResults`). -/
structure SemanticResults where
  semMatches : Option (List SemanticMatch)
deriving DecidableEq

/-- One official HTS lookup result (`htsEntry`). -/
structure HtsEntry where
  code : String
  description : String
  category : Option String
  officialSource : Option String
  tariffInfo : Option String
deriving DecidableEq

/-- The image-analysis response fragment the combiner reads. -/
structure ImageAnalysis where
  materials : Option (List String)
deriving DecidableEq

/-- Conversion of one semantic match into a candidate: absent confidence
becomes 0 and the result is capped at 95 (`Math.min(match.confidence || 0, 95)`). -/
def semanticCandidate (m : SemanticMatch) : PredictionCandidate :=
  { code := m.code
    description := m.description.getD ""
    confidence := min (m.confidence.getD 0) 95
    reasoning := m.reasoning.getD "AI semantic analysis"
    category := m.category }

/-- The semantic stage of the combiner: nothing if the collaborator
returned no `matches` field. -/
def semanticCandidates (sr : SemanticResults) : List PredictionCandidate :=
  match sr.semMatches with
  | none => []
  | some ms => ms.map semanticCandidate

/-- Boost an existing candidate for an official match: `+20` capped at 98,
mark official, copy source and tariff payload. -/
def boostOfficial (c : PredictionCandidate) (e : HtsEntry) : PredictionCandidate :=
  { c with confidence := min (c.confidence + 20) 98
           isOfficialMatch := true
           officialSource := e.officialSource
           tariffInfo := e.tariffInfo }

/-- A fresh candidate created from an official entry: confidence 92, marked official. -/
def officialCandidate (e : HtsEntry) : PredictionCandidate :=
  { code := e.code
    description := e.description
    confidence := 92
    reasoning := "Official USITC database match"
    category := e.category
    isOfficialMatch := true
    officialSource := e.officialSource
    tariffInfo := e.tariffInfo }

/-- Merge one official entry: boost the first candidate with the same code,
or append a fresh official candidate when the code is new. -/
def mergeOfficialEntry : List PredictionCandidate → HtsEntry → List PredictionCandidate
  | [], e => [officialCandidate e]
  | c :: cs, e =>
    if c.code = e.code then boostOfficial c e :: cs
    else c :: mergeOfficialEntry cs e

/-- The official stage of the combiner: fold every HTS result in order. -/
def mergeOfficial (cands : List PredictionCandidate) (hts : List HtsEntry) : List PredictionCandidate :=
  hts.foldl mergeOfficialEntry cands

/-- The image stage applied to one candidate: `+5` capped at 99 when a
reported material occurs in the description or category. -/
def imageEnhanceCandidate (ia : ImageAnalysis) (c : PredictionCandidate) : PredictionCandidate :=
  match ia.materials with
  | none => c
  | some mats =>
    if mats.any (fun m =>
        strIncludes (strLower c.description) (strLower m) ||
        ((c.category.map (fun cat => strIncludes (strLower cat) (strLower m))).getD false)) then
      { c with confidence := min (c.confidence + 5) 99
               reasoning := c.reasoning ++ " (confirmed by image analysis)" }
    else c

/-- The image stage of the combiner. -/
def imageEnhance (img : Option ImageAnalysis) (cands : List PredictionCandidate) : List PredictionCandidate :=
  match img with
  | none => cands
  | some ia => cands.map (imageEnhanceCandidate ia)

/-- The dedup filter `index === self.findIndex(c => c.code === candidate.code)`:
keep the first occurrence of each code. -/
def dedupByCode (seen : List String) : List PredictionCandidate → List PredictionCandidate
  | [] => []
  | c :: cs =>
    if c.code ∈ seen then dedupByCode seen cs
    else c :: dedupByCode (c.code :: seen) cs

/-- The candidate list the combiner has accumulated just before the final
dedup-and-sort step. -/
def preDedupCandidates (sr : SemanticResults) (hts : List HtsEntry) (img : Option ImageAnalysis) :
    List PredictionCandidate :=
  imageEnhance img (mergeOfficial (semanticCandidates sr) hts)

/-- `combineAndRankCandidates`: semantic stage, official stage, image stage,
dedup by code (first occurrence wins), sort descending by confidence. -/
def combineAndRankCandidates (sr : SemanticResults) (hts : List HtsEntry) (img : Option ImageAnalysis) :
    List PredictionCandidate :=
  sortDescBy (fun c => c.confidence) (dedupByCode [] (preDedupCandidates sr hts img))

/-! ## The confidence aggregator (`calculateOverallConfidence`) -/

/-- `calculateOverallConfidence`: 0 on the empty list; otherwise the top
confidence, `+5` capped at 99 when an official match exists, `−15` floored
at 0 when the spread is below 10, rounded. -/
def calculateOverallConfidence (cands : List PredictionCandidate) : Int :=
  match cands with
  | [] => 0
  | top :: rest =>
    let hasOfficialMatch := (top :: rest).any (fun c => c.isOfficialMatch)
    let confidenceSpread : ℚ :=
      match rest with
      | [] => top.confidence
      | second :: _ => top.confidence - second.confidence
    let oc0 := top.confidence
    let oc1 := if hasOfficialMatch then min (oc0 + 5) 99 else oc0
    let oc2 := if confidenceSpread < 10 then max (oc1 - 15) 0 else oc1
    jsRound oc2

/-- Modelled from the spec: the Confidence Aggregator rule exactly as the
specification words it (start from the top confidence; `+5` capped at 99
when any candidate is officially validated; subtract 15 with floor 0 when
the spread — top minus second, or the top confidence itself for a single
candidate — is below 10; round to the nearest integer).  Stated separately
so the source function can be proved to refine it. -/
def aggregateSpec (cands : List PredictionCandidate) : Int :=
  match cands with
  | [] => 0
  | top :: rest =>
    let boosted :=
      if (top :: rest).any (fun c => c.isOfficialMatch) then min (top.confidence + 5) 99
      else top.confidence
    let spread : ℚ :=
      match rest with
      | [] => top.confidence
      | second :: _ => top.confidence - second.confidence
    jsRound (if spread < 10 then max (boosted - 15) 0 else boosted)

/-! ## The review policy (`determineHumanReviewNeed`) -/

/-- The fixed watch-list of special product terms. -/
def reviewKeywords : List String :=
  ["battery", "lithium", "food", "cosmetic", "pharmaceutical", "medical",
   "chemical", "hazardous", "explosive", "flammable", "dangerous",
   "supplement", "medicine", "drug", "organic", "agriculture"]

/-- The no-clear-winner condition: more than one candidate and the top two
confidences less than 15 apart. -/
def similarCond : List PredictionCandidate → Bool
  | a :: b :: _ => decide (a.confidence - b.confidence < 15)
  | _ => false

/-- The watch-list condition on the lower-cased `title ++ " " ++ description`. -/
def keywordCond (title description : String) : Bool :=
  reviewKeywords.any (fun kw => strIncludes (strLower (title ++ " " ++ description)) kw)

/-- The accumulated review reasons, in the order the source pushes them. -/
def reviewReasons (cands : List PredictionCandidate) (confidence : Int)
    (title description : String) : List String :=
  (if confidence < 70 then ["Low confidence prediction"] else []) ++
  (if similarCond cands then ["Multiple similar candidates"] else []) ++
  (if keywordCond title description then ["Product requires special customs consideration"] else []) ++
  (if cands.isEmpty then ["No suitable HTS codes found"] else [])

/-- `determineHumanReviewNeed`: the flag is set exactly when some reason
accumulated; the optional message joins the reasons with `"; "`. -/
def determineHumanReviewNeed (cands : List PredictionCandidate) (confidence : Int)
    (title description : String) : Bool × Option String :=
  let reasons := reviewReasons cands confidence title description
  (!reasons.isEmpty,
   if reasons.isEmpty then none else some (String.intercalate "; " reasons))

/-! ## Request validation (the `serve` handler of `enhanced-prediction`) -/

/-- The prediction request body (`PredictionRequest`). -/
structure PredictionRequest where
  productTitle : String
  productDescription : String
  category : Option String
  materials : Option String
  imageUrl : Option String
deriving DecidableEq

/-- The handler validation: reject when `productTitle` is empty (falsy) and
when it exceeds 500 characters; `productDescription` is never inspected. -/
def validateRequest (r : PredictionRequest) : Bool :=
  !(decide (r.productTitle = "")) && !(decide (r.productTitle.length > 500))

/-- The first candidate with a given code. -/
def lookupByCode (cands : List PredictionCandidate) (code : String) : Option PredictionCandidate :=
  cands.find? (fun c => decide (c.code = code))

/-! ## Fixtures used by the closed statements -/

/-- A local candidate with confidence 60 on the scenario code. -/
def cand60 : PredictionCandidate :=
  { code := "9999.00.0000", description := "", confidence := 60, reasoning := "", category := none }

/-- The official scenario entry. -/
def hts9999 : HtsEntry :=
  { code := "9999.00.0000", description := "Other articles", category := none,
    officialSource := none, tariffInfo := none }

/-- A semantic response holding one match with confidence 50 on the scenario code. -/
def semOne : SemanticResults :=
  { semMatches := some [{ code := "9999.00.0000", description := none, confidence := some 50,
                          reasoning := none, category := none }] }

/-- A semantic response holding two matches with the same code and
confidences 50 and 90. -/
def semDup : SemanticResults :=
  { semMatches := some
      [{ code := "9999.00.0000", description := none, confidence := some 50,
         reasoning := none, category := none },
       { code := "9999.00.0000", description := none, confidence := some 90,
         reasoning := none, category := none }] }

/-- A semantic match with no confidence value. -/
def semMissingConf : SemanticMatch :=
  { code := "0000.00.0000", description := none, confidence := none, reasoning := none, category := none }

/-- A semantic response with no `matches` field. -/
def semEmpty : SemanticResults := { semMatches := none }

/-- The all-empty product descriptor. -/
def pdEmpty : ProductData :=
  { title := "", description := "", category := "", categoryId := none, materials := "", image := false }

/-- The bare-title descriptor used to evaluate the matcher pipeline. -/
def pdMug : ProductData :=
  { title := "mug", description := "", category := "", categoryId := none, materials := "", image := false }

/-- A request with an empty title but a meaningful description. -/
def reqEmptyTitle : PredictionRequest :=
  { productTitle := "", productDescription := "ceramic coffee mug", category := none,
    materials := none, imageUrl := none }

/-- Two candidates five points apart, used for the review scenario. -/
def candTop80 : PredictionCandidate :=
  { code := "1111.11.1111", description := "", confidence := 80, reasoning := "", category := none }

/-- The runner-up candidate of the review scenario. -/
def candSecond75 : PredictionCandidate :=
  { code := "2222.22.2222", description := "", confidence := 75, reasoning := "", category := none }

/-- Modelled from the spec: the §4.1 Keyword Matcher raw score as the claim
words it — `+15` per product-type term found in the title or description,
`+12` per material term found in the materials field, `+8` per category
stem match, `+4` per general term found in the title with the general
contribution capped at one ProductType match (15).  Stated to compare
against the source scoring rule. -/
def specRawScore (e : HSCode) (titleLower descLower categoryLower materialsLower : String) : Nat :=
  15 * ptCount e titleLower descLower + 12 * matCount e materialsLower +
  8 * catCount e categoryLower + min (4 * genCount e titleLower) 15

/-! ## General lemmas: weighted fold counting -/

/-- A fold adding `w` for every element satisfying `p` computes
`init + w * countP`. -/
theorem foldl_ite_add_count {α : Type} (p : α → Bool) (w : Nat) :
    ∀ (l : List α) (init : Nat),
      l.foldl (fun s x => if p x then s + w else s) init = init + w * l.countP p := by
  intro l
  induction l with
  | nil => intro init; simp
  | cons a l ih =>
    intro init
    simp only [List.foldl_cons, List.countP_cons, ih]
    by_cases h : p a = true <;> simp [h] <;> all_goals ring

/-- The nested fold of the category loop computes `init + w * Σ`. -/
theorem foldl_ite_nested_count {α γ : Type} (P : α → Prop) [DecidablePred P]
    (Q : α → γ → Bool) (inner : List γ) (w : Nat) :
    ∀ (outer : List α) (init : Nat),
      outer.foldl
        (fun s cw =>
          if P cw then inner.foldl (fun s2 hw => if Q cw hw then s2 + w else s2) s else s)
        init
      = init + w * (outer.map (fun cw => if P cw then inner.countP (Q cw) else 0)).sum := by
  intro outer
  induction outer with
  | nil => intro init; simp
  | cons a l ih =>
    intro init
    simp only [List.foldl_cons, List.map_cons, List.sum_cons, ih]
    by_cases h : P a <;> simp [h, foldl_ite_add_count] <;> all_goals ring

/-! ## General lemmas: the stable descending sort -/

theorem mem_insertSortedDesc {α β : Type} [LinearOrder β] (key : α → β) (x a : α) :
    ∀ l : List α, a ∈ insertSortedDesc key x l ↔ a = x ∨ a ∈ l := by
  intro l
  induction l with
  | nil => simp [insertSortedDesc]
  | cons y ys ih =>
    simp only [insertSortedDesc]
    by_cases h : key y ≤ key x
    · rw [if_pos h]; simp [List.mem_cons]
    · rw [if_neg h]; simp only [List.mem_cons, ih]; tauto

theorem perm_insertSortedDesc {α β : Type} [LinearOrder β] (key : α → β) (x : α) :
    ∀ l : List α, List.Perm (insertSortedDesc key x l) (x :: l) := by
  intro l
  induction l with
  | nil => exact List.Perm.refl _
  | cons y ys ih =>
    simp only [insertSortedDesc]
    by_cases h : key y ≤ key x
    · rw [if_pos h]
    · rw [if_neg h]; exact (ih.cons y).trans (List.Perm.swap x y ys)

theorem sortDescBy_perm {α β : Type} [LinearOrder β] (key : α → β) :
    ∀ l : List α, List.Perm (sortDescBy key l) l := by
  intro l
  induction l with
  | nil => exact List.Perm.refl _
  | cons x xs ih =>
    simp only [sortDescBy]
    exact (perm_insertSortedDesc key x _).trans (ih.cons x)

theorem mem_sortDescBy {α β : Type} [LinearOrder β] (key : α → β) (l : List α) (a : α) :
    a ∈ sortDescBy key l ↔ a ∈ l :=
  (sortDescBy_perm key l).mem_iff

theorem pairwise_insertSortedDesc {α β : Type} [LinearOrder β] (key : α → β) (x : α) :
    ∀ l : List α, List.Pairwise (fun a b => key b ≤ key a) l →
      List.Pairwise (fun a b => key b ≤ key a) (insertSortedDesc key x l) := by
  intro l
  induction l with
  | nil => intro _; simp [insertSortedDesc]
  | cons y ys ih =>
    intro hp
    rcases List.pairwise_cons.mp hp with ⟨hy, hys⟩
    simp only [insertSortedDesc]
    by_cases h : key y ≤ key x
    · rw [if_pos h]
      refine List.pairwise_cons.mpr ⟨?_, hp⟩
      intro z hz
      rcases List.mem_cons.mp hz with rfl | hz
      · exact h
      · exact le_trans (hy z hz) h
    · rw [if_neg h]
      refine List.pairwise_cons.mpr ⟨?_, ih hys⟩
      intro z hz
      rcases (mem_insertSortedDesc key x z ys).mp hz with rfl | hz
      · exact le_of_lt (lt_of_not_le h)
      · exact hy z hz

theorem pairwise_sortDescBy {α β : Type} [LinearOrder β] (key : α → β) :
    ∀ l : List α, List.Pairwise (fun a b => key b ≤ key a) (sortDescBy key l) := by
  intro l
  induction l with
  | nil => simp [sortDescBy]
  | cons x xs ih =>
    simp only [sortDescBy]
    exact pairwise_insertSortedDesc key x _ ih

/-- Inserting never reorders the elements with any fixed key value. -/
theorem filter_insertSortedDesc {α β : Type} [LinearOrder β] (key : α → β) (x : α) (q : β) :
    ∀ l : List α,
      (insertSortedDesc key x l).filter (fun a => decide (key a = q)) =
        if key x = q then x :: l.filter (fun a => decide (key a = q))
        else l.filter (fun a => decide (key a = q)) := by
  intro l
  induction l with
  | nil =>
    by_cases hx : key x = q <;> simp [insertSortedDesc, List.filter_cons, hx]
  | cons y ys ih =>
    simp only [insertSortedDesc]
    by_cases h : key y ≤ key x
    · rw [if_pos h]
      by_cases hx : key x = q <;> simp [List.filter_cons, hx]
    · rw [if_neg h]
      by_cases hx : key x = q
      · have hy : ¬(key y = q) := by
          intro hyq
          exact h (le_of_eq (by rw [hyq, hx]))
        simp [List.filter_cons, hx, hy, ih]
      · by_cases hy : key y = q <;> simp [List.filter_cons, hx, hy, ih]

/-- Stability: sorting preserves the relative order of the elements having
any fixed key value. -/
theorem sortDescBy_filter_key {α β : Type} [LinearOrder β] (key : α → β) (q : β) :
    ∀ l : List α,
      (sortDescBy key l).filter (fun a => decide (key a = q)) =
        l.filter (fun a => decide (key a = q)) := by
  intro l
  induction l with
  | nil => simp [sortDescBy]
  | cons x xs ih =>
    simp only [sortDescBy]
    rw [filter_insertSortedDesc, ih]
    by_cases hx : key x = q <;> simp [List.filter_cons, hx]

/-! ## General lemmas: dedup by code -/

theorem dedupByCode_not_seen :
    ∀ (l : List PredictionCandidate) (seen : List String) (c : PredictionCandidate),
      c ∈ dedupByCode seen l → c.code ∉ seen := by
  intro l
  induction l with
  | nil => intro seen c hc; simp [dedupByCode] at hc
  | cons d ds ih =>
    intro seen c hc
    simp only [dedupByCode] at hc
    by_cases hd : d.code ∈ seen
    · rw [if_pos hd] at hc
      exact ih seen c hc
    · rw [if_neg hd] at hc
      rcases List.mem_cons.mp hc with rfl | hc2
      · exact hd
      · intro hcs
        exact ih (d.code :: seen) c hc2 (List.mem_cons_of_mem _ hcs)

theorem dedupByCode_pairwise_codes :
    ∀ (l : List PredictionCandidate) (seen : List String),
      List.Pairwise (fun a b => a.code ≠ b.code) (dedupByCode seen l) := by
  intro l
  induction l with
  | nil => intro seen; simp [dedupByCode]
  | cons d ds ih =>
    intro seen
    simp only [dedupByCode]
    by_cases hd : d.code ∈ seen
    · rw [if_pos hd]; exact ih seen
    · rw [if_neg hd]
      refine List.pairwise_cons.mpr ⟨?_, ih (d.code :: seen)⟩
      intro c hc heq
      exact dedupByCode_not_seen ds (d.code :: seen) c hc (heq ▸ List.mem_cons_self _ _)

theorem dedupByCode_find :
    ∀ (l : List PredictionCandidate) (seen : List String) (c : PredictionCandidate),
      c ∈ dedupByCode seen l → lookupByCode l c.code = some c := by
  intro l
  induction l with
  | nil => intro seen c hc; simp [dedupByCode] at hc
  | cons d ds ih =>
    intro seen c hc
    simp only [dedupByCode] at hc
    by_cases hd : d.code ∈ seen
    · rw [if_pos hd] at hc
      have hne : ¬(d.code = c.code) := by
        intro heq
        exact dedupByCode_not_seen ds seen c hc (heq ▸ hd)
      have := ih seen c hc
      simpa [lookupByCode, List.find?_cons, hne] using this
    · rw [if_neg hd] at hc
      rcases List.mem_cons.mp hc with rfl | hc2
      · simp [lookupByCode, List.find?_cons]
      · have hnotin := dedupByCode_not_seen ds (d.code :: seen) c hc2
        have hne : ¬(d.code = c.code) := by
          intro heq
          exact hnotin (heq ▸ List.mem_cons_self _ _)
        have := ih (d.code :: seen) c hc2
        simpa [lookupByCode, List.find?_cons, hne] using this

/-! ## General lemmas: rounding bounds -/

theorem jsRound_bounds {q : ℚ} (h0 : 0 ≤ q) (h1 : q ≤ 100) :
    0 ≤ jsRound q ∧ jsRound q ≤ 100 := by
  unfold jsRound
  constructor
  · exact Int.le_floor.mpr (by push_cast; linarith)
  · have hlt : (⌊q + 1 / 2⌋ : ℤ) < 101 := Int.floor_lt.mpr (by push_cast; linarith)
    omega

/-- A `min (u + 20) 98` boost is a fixed point exactly at 98 (given `u ≤ 98`). -/
theorem min_boost_fixed {u : ℚ} (hu : u ≤ 98) : min (u + 20) 98 = u ↔ u = 98 := by
  rcases le_total (u + 20) 98 with h | h
  · rw [min_eq_left h]
    constructor
    · intro he; linarith
    · intro he; linarith
  · rw [min_eq_right h]
    exact ⟨fun he => he.symm, fun he => he.symm⟩

/-! ## Lemmas on the official-merge step -/

/-- Merging an official entry whose code already occurs boosts exactly the
first occurrence and leaves everything else in place. -/
theorem mergeOfficialEntry_found :
    ∀ (cands : List PredictionCandidate) (e : HtsEntry),
      (∃ c ∈ cands, c.code = e.code) →
      ∃ pre c post, cands = pre ++ c :: post ∧ (∀ c2 ∈ pre, c2.code ≠ e.code) ∧ c.code = e.code ∧
        mergeOfficialEntry cands e = pre ++ boostOfficial c e :: post := by
  intro cands e
  induction cands with
  | nil =>
    rintro ⟨c0, hc0, _⟩
    exact absurd hc0 (List.not_mem_nil _)
  | cons a l ih =>
    intro h
    by_cases ha : a.code = e.code
    · exact ⟨[], a, l, rfl, by simp, ha, by simp [mergeOfficialEntry, ha]⟩
    · rcases h with ⟨c0, hc0, hcode⟩
      rcases List.mem_cons.mp hc0 with rfl | hc0l
      · exact absurd hcode ha
      · rcases ih ⟨c0, hc0l, hcode⟩ with ⟨pre, c, post, heq, hpre, hc, hm⟩
        refine ⟨a :: pre, c, post, by rw [heq]; rfl, ?_, hc, ?_⟩
        · intro c2 hc2
          rcases List.mem_cons.mp hc2 with rfl | h2
          · exact ha
          · exact hpre c2 h2
        · simp [mergeOfficialEntry, ha, hm]

/-- Merging an official entry with a fresh code appends a fresh candidate. -/
theorem mergeOfficialEntry_notfound :
    ∀ (cands : List PredictionCandidate) (e : HtsEntry),
      (∀ c ∈ cands, c.code ≠ e.code) →
      mergeOfficialEntry cands e = cands ++ [officialCandidate e] := by
  intro cands e
  induction cands with
  | nil => intro _; rfl
  | cons a l ih =>
    intro h
    have ha := h a (List.mem_cons_self _ _)
    simp [mergeOfficialEntry, ha, ih (fun c hc => h c (List.mem_cons_of_mem _ hc))]

/-- Merging the same official entry twice: the entry is present after one
merge with confidence at most 98, and the second merge boosts it again by
`+20` capped at 98. -/
theorem mergeOfficialEntry_twice :
    ∀ (cands : List PredictionCandidate) (e : HtsEntry),
      ∃ c1 c2,
        lookupByCode (mergeOfficialEntry cands e) e.code = some c1 ∧
        lookupByCode (mergeOfficialEntry (mergeOfficialEntry cands e) e) e.code = some c2 ∧
        c1.isOfficialMatch = true ∧ c2.isOfficialMatch = true ∧
        c1.confidence ≤ 98 ∧
        c2.confidence = min (c1.confidence + 20) 98 := by
  intro cands
  induction cands with
  | nil =>
    intro e
    refine ⟨officialCandidate e, boostOfficial (officialCandidate e) e, ?_, ?_, rfl, rfl, ?_, rfl⟩
    · simp [mergeOfficialEntry, lookupByCode, List.find?_cons, officialCandidate]
    · simp [mergeOfficialEntry, officialCandidate, boostOfficial, lookupByCode, List.find?_cons]
    · show (92 : ℚ) ≤ 98
      norm_num
  | cons a l ih =>
    intro e
    by_cases ha : a.code = e.code
    · refine ⟨boostOfficial a e, boostOfficial (boostOfficial a e) e, ?_, ?_, rfl, rfl, ?_, rfl⟩
      · simp [mergeOfficialEntry, ha, lookupByCode, List.find?_cons, boostOfficial]
      · simp [mergeOfficialEntry, ha, boostOfficial, lookupByCode, List.find?_cons]
      · show min (a.confidence + 20) 98 ≤ 98
        exact min_le_right _ _
    · rcases ih e with ⟨c1, c2, h1, h2, ho1, ho2, hle, hconf⟩
      refine ⟨c1, c2, ?_, ?_, ho1, ho2, hle, hconf⟩
      · simpa [mergeOfficialEntry, ha, lookupByCode, List.find?_cons] using h1
      · simpa [mergeOfficialEntry, ha, lookupByCode, List.find?_cons] using h2

/-- Dedup only ever keeps elements of its input. -/
theorem dedupByCode_subset :
    ∀ (l : List PredictionCandidate) (seen : List String) (c : PredictionCandidate),
      c ∈ dedupByCode seen l → c ∈ l := by
  intro l
  induction l with
  | nil => intro seen c hc; simp [dedupByCode] at hc
  | cons d ds ih =>
    intro seen c hc
    simp only [dedupByCode] at hc
    by_cases hd : d.code ∈ seen
    · rw [if_pos hd] at hc
      exact List.mem_cons_of_mem _ (ih seen c hc)
    · rw [if_neg hd] at hc
      rcases List.mem_cons.mp hc with rfl | hc2
      · exact List.mem_cons_self _ _
      · exact List.mem_cons_of_mem _ (ih (d.code :: seen) c hc2)

/-! ## Claim theorems -/

/-- Claim C1: for every official-registry candidate processed by the
combiner, an already-present code gets its first matching entry boosted by
`+20` capped at 98 and marked officially validated (its category kept),
while a new code is inserted with confidence exactly 92 and marked
officially validated; in particular an accumulated candidate with
confidence 60 sharing the official code ends at confidence 80 with the
flag set. -/
theorem claim_c1_official_merge (cands : List PredictionCandidate) (e : HtsEntry) :
    ((∃ c ∈ cands, c.code = e.code) →
      ∃ pre c post, cands = pre ++ c :: post ∧ (∀ c2 ∈ pre, c2.code ≠ e.code) ∧ c.code = e.code ∧
        mergeOfficialEntry cands e = pre ++ boostOfficial c e :: post ∧
        (boostOfficial c e).confidence = min (c.confidence + 20) 98 ∧
        (boostOfficial c e).isOfficialMatch = true ∧
        (boostOfficial c e).category = c.category) ∧
    ((∀ c ∈ cands, c.code ≠ e.code) →
      mergeOfficialEntry cands e = cands ++ [officialCandidate e] ∧
      (officialCandidate e).confidence = 92 ∧
      (officialCandidate e).isOfficialMatch = true) ∧
    (∀ c : PredictionCandidate, c.code = e.code → c.confidence = 60 →
      (mergeOfficialEntry [c] e).map (fun x => x.confidence) = [80] ∧
      (mergeOfficialEntry [c] e).map (fun x => x.isOfficialMatch) = [true]) := by
  refine ⟨?_, ?_, ?_⟩
  · intro h
    rcases mergeOfficialEntry_found cands e h with ⟨pre, c, post, heq, hpre, hc, hm⟩
    exact ⟨pre, c, post, heq, hpre, hc, hm, rfl, rfl, rfl⟩
  · intro h
    exact ⟨mergeOfficialEntry_notfound cands e h, rfl, rfl⟩
  · intro c hcode hconf
    constructor
    · norm_num [mergeOfficialEntry, hcode, boostOfficial, hconf, min_def]
    · simp [mergeOfficialEntry, hcode, boostOfficial]

/-- Claim C1 witness: the 60-plus-official scenario evaluated concretely. -/
theorem claim_c1_witness :
    (mergeOfficialEntry [cand60] hts9999).map (fun x => x.confidence) = [80] ∧
    (mergeOfficialEntry [cand60] hts9999).map (fun x => x.isOfficialMatch) = [true] :=
  (claim_c1_official_merge [cand60] hts9999).2.2 cand60 rfl rfl

/-- Claim C8 counterexample: merging the same official candidate twice does
not equal merging it once — a semantic candidate at confidence 50 ends at
70 after one merge but at 90 after two. -/
theorem claim_c8_counterexample :
    (combineAndRankCandidates semOne [hts9999] none).map (fun c => c.confidence) = [70] ∧
    (combineAndRankCandidates semOne [hts9999, hts9999] none).map (fun c => c.confidence) = [90] ∧
    combineAndRankCandidates semOne [hts9999, hts9999] none ≠
      combineAndRankCandidates semOne [hts9999] none := by
  refine ⟨?_, ?_, ?_⟩
  · norm_num [combineAndRankCandidates, preDedupCandidates, imageEnhance, mergeOfficial,
      mergeOfficialEntry, semanticCandidates, semanticCandidate, semOne, hts9999,
      boostOfficial, dedupByCode, sortDescBy, insertSortedDesc, min_def]
  · norm_num [combineAndRankCandidates, preDedupCandidates, imageEnhance, mergeOfficial,
      mergeOfficialEntry, semanticCandidates, semanticCandidate, semOne, hts9999,
      boostOfficial, dedupByCode, sortDescBy, insertSortedDesc, min_def]
  · intro hcontra
    have h1 : (combineAndRankCandidates semOne [hts9999] none).map (fun c => c.confidence) = [70] := by
      norm_num [combineAndRankCandidates, preDedupCandidates, imageEnhance, mergeOfficial,
        mergeOfficialEntry, semanticCandidates, semanticCandidate, semOne, hts9999,
        boostOfficial, dedupByCode, sortDescBy, insertSortedDesc, min_def]
    have h2 : (combineAndRankCandidates semOne [hts9999, hts9999] none).map (fun c => c.confidence) = [90] := by
      norm_num [combineAndRankCandidates, preDedupCandidates, imageEnhance, mergeOfficial,
        mergeOfficialEntry, semanticCandidates, semanticCandidate, semOne, hts9999,
        boostOfficial, dedupByCode, sortDescBy, insertSortedDesc, min_def]
    rw [hcontra, h1] at h2
    exact absurd h2 (by norm_num)

/-- Claim C8 (amended): merging the same official candidate a second time
applies the `+20` boost again, capped at 98: the merged entry exists after
either pass, stays officially validated, never exceeds 98, the twice-merged
confidence is `min (once + 20) 98`, and the two merges agree exactly when
the once-merged confidence is already 98. -/
theorem claim_c8_double_boost (cands : List PredictionCandidate) (e : HtsEntry) :
    ∃ c1 c2,
      lookupByCode (mergeOfficialEntry cands e) e.code = some c1 ∧
      lookupByCode (mergeOfficialEntry (mergeOfficialEntry cands e) e) e.code = some c2 ∧
      c1.isOfficialMatch = true ∧ c2.isOfficialMatch = true ∧
      c1.confidence ≤ 98 ∧ c2.confidence ≤ 98 ∧
      c2.confidence = min (c1.confidence + 20) 98 ∧
      (c2.confidence = c1.confidence ↔ c1.confidence = 98) := by
  rcases mergeOfficialEntry_twice cands e with ⟨c1, c2, h1, h2, ho1, ho2, hle, hconf⟩
  refine ⟨c1, c2, h1, h2, ho1, ho2, hle, ?_, hconf, ?_⟩
  · rw [hconf]; exact min_le_right _ _
  · rw [hconf]; exact min_boost_fixed hle

/-- Claim C10: semantic candidates enter the combiner with confidence
`min (reported, 95)`; a missing confidence value becomes 0; consequently a
semantic-only merge carries no confidence above 95. -/
theorem claim_c10_semantic_cap (sr : SemanticResults) (m : SemanticMatch) (q : ℚ) :
    (∀ c ∈ semanticCandidates sr, c.confidence ≤ 95) ∧
    (m.confidence = none → (semanticCandidate m).confidence = 0) ∧
    (m.confidence = some q → (semanticCandidate m).confidence = min q 95) ∧
    (∀ c ∈ combineAndRankCandidates sr [] none, c.confidence ≤ 95) := by
  have hsem : ∀ c ∈ semanticCandidates sr, c.confidence ≤ 95 := by
    intro c hc
    rcases hm : sr.semMatches with _ | ms
    · simp [semanticCandidates, hm] at hc
    · rw [semanticCandidates, hm] at hc
      rcases List.mem_map.mp hc with ⟨m0, _, rfl⟩
      exact min_le_right _ _
  refine ⟨hsem, ?_, ?_, ?_⟩
  · intro h
    simp [semanticCandidate, h]
  · intro h
    simp [semanticCandidate, h]
  · intro c hc
    rw [combineAndRankCandidates] at hc
    have hc2 := dedupByCode_subset _ [] c ((mem_sortDescBy _ _ _).mp hc)
    exact hsem c hc2

/-- Claim C10 witness: a match with a missing confidence value enters at 0. -/
theorem claim_c10_witness : (semanticCandidate semMissingConf).confidence = 0 :=
  (claim_c10_semantic_cap semEmpty semMissingConf 0).2.1 rfl

/-- The middle stages of the aggregator keep a `[0, 100]` confidence inside
`[0, 100]`. -/
theorem aggregator_stage_bounds {t : ℚ} (h0 : 0 ≤ t) (h1 : t ≤ 100)
    (off sp : Prop) [Decidable off] [Decidable sp] :
    0 ≤ (if sp then max ((if off then min (t + 5) 99 else t) - 15) 0
         else (if off then min (t + 5) 99 else t)) ∧
    (if sp then max ((if off then min (t + 5) 99 else t) - 15) 0
     else (if off then min (t + 5) 99 else t)) ≤ 100 := by
  set u : ℚ := if off then min (t + 5) 99 else t with hu
  have hb0 : 0 ≤ u := by
    rw [hu]
    split_ifs with h
    · exact le_min (by linarith) (by norm_num)
    · exact h0
  have hb1 : u ≤ 100 := by
    rw [hu]
    split_ifs with h
    · exact le_trans (min_le_right _ _) (by norm_num)
    · exact h1
  constructor
  · split_ifs with h
    · exact le_max_right _ _
    · exact hb0
  · split_ifs with h
    · exact max_le (by linarith) (by norm_num)
    · exact hb1

/-- Claim C2: the aggregator returns 0 on the empty list, otherwise refines
the specified sequence — top confidence, `+5` capped at 99 on an official
match, `−15` floored at 0 on a spread below 10 (the spread being the top
confidence itself for a single candidate), rounded — and, whenever every
input confidence lies in `[0, 100]`, so does the result. -/
theorem claim_c2_aggregator (cands : List PredictionCandidate) :
    calculateOverallConfidence cands = aggregateSpec cands ∧
    calculateOverallConfidence [] = 0 ∧
    ((∀ c ∈ cands, 0 ≤ c.confidence ∧ c.confidence ≤ 100) →
      0 ≤ calculateOverallConfidence cands ∧ calculateOverallConfidence cands ≤ 100) := by
  refine ⟨?_, rfl, ?_⟩
  · cases cands with
    | nil => rfl
    | cons top rest => cases rest with
      | nil => rfl
      | cons b t => rfl
  · intro h
    cases cands with
    | nil => exact ⟨le_refl 0, by norm_num [calculateOverallConfidence]⟩
    | cons top rest =>
      obtain ⟨h0, h100⟩ := h top (List.mem_cons_self _ _)
      cases rest with
      | nil =>
        simp only [calculateOverallConfidence]
        exact jsRound_bounds (aggregator_stage_bounds h0 h100 _ _).1
          (aggregator_stage_bounds h0 h100 _ _).2
      | cons b t =>
        simp only [calculateOverallConfidence]
        exact jsRound_bounds (aggregator_stage_bounds h0 h100 _ _).1
          (aggregator_stage_bounds h0 h100 _ _).2

/-- Claim C2 witness: the bounds discharged on a concrete candidate list. -/
theorem claim_c2_witness :
    0 ≤ calculateOverallConfidence [cand60] ∧ calculateOverallConfidence [cand60] ≤ 100 :=
  (claim_c2_aggregator [cand60]).2.2 (by decide)

/-- Claim C9 counterexample: the handler rejects a request whose title is
empty even though its description is not — so "title and description both
empty" is not the only caller-visible rejection. -/
theorem claim_c9_counterexample :
    validateRequest reqEmptyTitle = false ∧
    ¬(reqEmptyTitle.productTitle = "" ∧ reqEmptyTitle.productDescription = "") := by
  constructor
  · decide
  · decide

/-- Claim C9 (amended): request validation accepts exactly the requests
whose `productTitle` is non-empty and at most 500 characters long; the
description is never consulted. -/
theorem claim_c9_validation (r : PredictionRequest) (d1 d2 : String) :
    (validateRequest r = true ↔ (r.productTitle ≠ "" ∧ r.productTitle.length ≤ 500)) ∧
    validateRequest { r with productDescription := d1 } =
      validateRequest { r with productDescription := d2 } := by
  constructor
  · simp [validateRequest, not_lt]
  · rfl

/-- The no-clear-winner condition holds exactly on lists with at least two
elements whose top two confidences are less than 15 apart. -/
theorem similarCond_iff (cands : List PredictionCandidate) :
    similarCond cands = true ↔
      ∃ a b t, cands = a :: b :: t ∧ a.confidence - b.confidence < 15 := by
  cases cands with
  | nil => simp [similarCond]
  | cons a rest =>
    cases rest with
    | nil => simp [similarCond]
    | cons b t =>
      simp only [similarCond, decide_eq_true_eq]
      constructor
      · intro h
        exact ⟨a, b, t, rfl, h⟩
      · rintro ⟨a2, b2, t2, heq, h⟩
        obtain ⟨rfl, rfl, rfl⟩ := by simpa using heq
        exact h

/-- Claim C3: the review policy accumulates exactly the four specified
reasons — low confidence below 70, top two candidates less than 15 apart,
a watch-list term in the lower-cased title-plus-description, and an empty
candidate list — and flags review exactly when some reason accumulated. -/
theorem claim_c3_review_policy (cands : List PredictionCandidate) (confidence : Int)
    (title description : String) :
    ((determineHumanReviewNeed cands confidence title description).1 = true ↔
      reviewReasons cands confidence title description ≠ []) ∧
    ("Low confidence prediction" ∈ reviewReasons cands confidence title description ↔
      confidence < 70) ∧
    ("Multiple similar candidates" ∈ reviewReasons cands confidence title description ↔
      ∃ a b t, cands = a :: b :: t ∧ a.confidence - b.confidence < 15) ∧
    ("Product requires special customs consideration" ∈
        reviewReasons cands confidence title description ↔
      ∃ kw ∈ reviewKeywords, strIncludes (strLower (title ++ " " ++ description)) kw = true) ∧
    ("No suitable HTS codes found" ∈ reviewReasons cands confidence title description ↔
      cands = []) ∧
    (∀ r ∈ reviewReasons cands confidence title description,
      r = "Low confidence prediction" ∨ r = "Multiple similar candidates" ∨
      r = "Product requires special customs consideration" ∨
      r = "No suitable HTS codes found") := by
  refine ⟨?_, ?_, ?_, ?_, ?_, ?_⟩
  · simp only [determineHumanReviewNeed]
    cases hr : reviewReasons cands confidence title description with
    | nil => simp
    | cons a t => simp
  · simp only [reviewReasons, List.mem_append]
    split_ifs with h1 h2 h3 h4 <;> simp_all
  · rw [← similarCond_iff]
    simp only [reviewReasons, List.mem_append]
    split_ifs with h1 h2 h3 h4 <;> simp_all
  · rw [← List.any_eq_true, show (reviewKeywords.any fun kw =>
        strIncludes (strLower (title ++ " " ++ description)) kw) = keywordCond title description from rfl]
    simp only [reviewReasons, List.mem_append]
    split_ifs with h1 h2 h3 h4 <;> simp_all
  · rw [← List.isEmpty_iff]
    simp only [reviewReasons, List.mem_append]
    split_ifs with h1 h2 h3 h4 <;> simp_all
  · intro r hr
    simp only [reviewReasons, List.mem_append] at hr
    rcases hr with ((h | h) | h) | h <;> split_ifs at h <;> simp_all

/-- Claim C3 witness: overall confidence 65 with two candidates 5 apart
flags review with both the low-confidence and the similar-candidates
reasons. -/
theorem claim_c3_witness :
    (determineHumanReviewNeed [candTop80, candSecond75] 65 "test product" "plain item").1 = true ∧
    "Low confidence prediction" ∈
      reviewReasons [candTop80, candSecond75] 65 "test product" "plain item" ∧
    "Multiple similar candidates" ∈
      reviewReasons [candTop80, candSecond75] 65 "test product" "plain item" := by
  refine ⟨?_, ?_, ?_⟩
  · refine (claim_c3_review_policy [candTop80, candSecond75] 65 "test product" "plain item").1.mpr ?_
    have hlow : "Low confidence prediction" ∈
        reviewReasons [candTop80, candSecond75] 65 "test product" "plain item" :=
      (claim_c3_review_policy [candTop80, candSecond75] 65 "test product" "plain item").2.1.mpr
        (by norm_num)
    intro hnil
    rw [hnil] at hlow
    exact absurd hlow (List.not_mem_nil _)
  · exact (claim_c3_review_policy [candTop80, candSecond75] 65 "test product" "plain item").2.1.mpr
      (by norm_num)
  · exact (claim_c3_review_policy [candTop80, candSecond75] 65 "test product" "plain item").2.2.1.mpr
      ⟨candTop80, candSecond75, [], rfl, by norm_num [candTop80, candSecond75]⟩

/-- `finalizePredictions` can never produce the empty list. -/
theorem finalizePredictions_ne_nil (pd : ProductData) (predictions : List HSCodePrediction) :
    finalizePredictions pd predictions ≠ [] := by
  unfold finalizePredictions
  by_cases hp : predictions.isEmpty
  · rw [if_pos hp]
    have hlen : (getFallbackPredictions pd).length = 1 := by
      unfold getFallbackPredictions
      split_ifs <;> rfl
    rcases List.length_eq_one.mp hlen with ⟨x, hx⟩
    rw [hx]
    simp
  · rw [if_neg hp]
    cases predictions with
    | nil => simp at hp
    | cons p t => simp

/-- Claim C6: the local pipeline never returns an empty list — when no
candidates were produced, the result is the fallback list, which always
holds exactly one hardcoded candidate with confidence in `[25, 80]`,
selected by the five descriptor-text rules in fixed priority order. -/
theorem claim_c6_fallback (pd : ProductData) (predictions : List HSCodePrediction) :
    finalizePredictions pd predictions ≠ [] ∧
    (predictions = [] → finalizePredictions pd predictions = getFallbackPredictions pd) ∧
    (getFallbackPredictions pd).length = 1 ∧
    (∀ p ∈ getFallbackPredictions pd, 25 ≤ p.confidence ∧ p.confidence ≤ 80) ∧
    (ceramicCond pd = true → getFallbackPredictions pd = [fallbackRuleCeramic pd]) ∧
    (ceramicCond pd = false → textileCond pd = true →
      getFallbackPredictions pd = [fallbackRuleTextile pd]) ∧
    (ceramicCond pd = false → textileCond pd = false → electronicsCond pd = true →
      getFallbackPredictions pd = [fallbackRuleElectronics pd]) ∧
    (ceramicCond pd = false → textileCond pd = false → electronicsCond pd = false →
      homeCond pd = true → getFallbackPredictions pd = [fallbackRuleHome pd]) ∧
    (ceramicCond pd = false → textileCond pd = false → electronicsCond pd = false →
      homeCond pd = false → getFallbackPredictions pd = [fallbackRuleGeneric pd]) ∧
    analyzeLocal pd ≠ [] := by
  have hlen : (getFallbackPredictions pd).length = 1 := by
    unfold getFallbackPredictions
    split_ifs <;> rfl
  refine ⟨finalizePredictions_ne_nil pd predictions, ?_, hlen, ?_, ?_, ?_, ?_, ?_, ?_,
    finalizePredictions_ne_nil pd (keywordPredictions pd)⟩
  · intro hp
    subst hp
    rcases List.length_eq_one.mp hlen with ⟨x, hx⟩
    simp [finalizePredictions, hx]
  · intro p hp
    unfold getFallbackPredictions at hp
    split_ifs at hp <;> simp at hp <;> subst hp <;>
      norm_num [fallbackRuleCeramic, fallbackRuleTextile, fallbackRuleElectronics,
        fallbackRuleHome, fallbackRuleGeneric]
  · intro h1
    simp [getFallbackPredictions, h1]
  · intro h1 h2
    simp [getFallbackPredictions, h1, h2]
  · intro h1 h2 h3
    simp [getFallbackPredictions, h1, h2, h3]
  · intro h1 h2 h3 h4
    simp [getFallbackPredictions, h1, h2, h3, h4]
  · intro h1 h2 h3 h4
    simp [getFallbackPredictions, h1, h2, h3, h4]

/-- Claim C6 witness: on the all-empty descriptor with no produced
candidates the pipeline returns the (singleton) fallback list. -/
theorem claim_c6_witness :
    finalizePredictions pdEmpty [] = getFallbackPredictions pdEmpty ∧
    analyzeLocal pdEmpty ≠ [] :=
  ⟨(claim_c6_fallback pdEmpty []).2.1 rfl,
   (claim_c6_fallback pdEmpty []).2.2.2.2.2.2.2.2.2⟩

/-- Claim C7 (amended): the combiner output never repeats a code, is sorted
descending by confidence, and every surviving candidate is the first
accumulated candidate carrying its code (the earlier entry wins a
duplicate, regardless of confidence). -/
theorem claim_c7_dedup (sr : SemanticResults) (hts : List HtsEntry) (img : Option ImageAnalysis) :
    List.Pairwise (fun a b => a.code ≠ b.code) (combineAndRankCandidates sr hts img) ∧
    List.Pairwise (fun a b => b.confidence ≤ a.confidence) (combineAndRankCandidates sr hts img) ∧
    (∀ c ∈ combineAndRankCandidates sr hts img,
      lookupByCode (preDedupCandidates sr hts img) c.code = some c) := by
  refine ⟨?_, ?_, ?_⟩
  · have hd := dedupByCode_pairwise_codes (preDedupCandidates sr hts img) []
    have hperm := sortDescBy_perm (fun c : PredictionCandidate => c.confidence)
      (dedupByCode [] (preDedupCandidates sr hts img))
    rw [combineAndRankCandidates]
    exact (hperm.pairwise_iff (fun h => Ne.symm h)).mpr hd
  · rw [combineAndRankCandidates]
    exact pairwise_sortDescBy _ _
  · intro c hc
    rw [combineAndRankCandidates] at hc
    exact dedupByCode_find _ [] c ((mem_sortDescBy _ _ _).mp hc)

/-- Claim C7 counterexample: two semantic candidates share a code with
confidences 50 and 90; the combiner keeps the first (50), not the highest
(90). -/
theorem claim_c7_counterexample :
    (semanticCandidates semDup).map (fun c => c.confidence) = [50, 90] ∧
    (combineAndRankCandidates semDup [] none).map (fun c => c.confidence) = [50] ∧
    ¬((50 : ℚ) = 90) := by
  refine ⟨?_, ?_, by norm_num⟩
  · norm_num [semanticCandidates, semanticCandidate, semDup, min_def]
  · norm_num [combineAndRankCandidates, preDedupCandidates, imageEnhance, mergeOfficial,
      semanticCandidates, semanticCandidate, semDup, dedupByCode, sortDescBy,
      insertSortedDesc, min_def]

/-- Claim C7 witness: the dedup invariant on a concrete duplicate-code input. -/
theorem claim_c7_witness :
    List.Pairwise (fun a b => a.code ≠ b.code) (combineAndRankCandidates semDup [] none) :=
  (claim_c7_dedup semDup [] none).1

/-- The keyword-path confidence is always clamped into `[35, 95]`. -/
theorem keywordConfidence_bounds (pd : ProductData) (e : HSCode) (i : Nat) :
    35 ≤ keywordConfidence pd e i ∧ keywordConfidence pd e i ≤ 95 := by
  simp only [keywordConfidence]
  exact ⟨le_min (by norm_num) (le_max_left _ _), min_le_left _ _⟩

/-- Claim C4 counterexample: on the first catalog entry and the descriptor
title "mug", the source raw score is 50 (one product-type hit at 50
points), while the claimed 15/12/8/4 weighting yields 15. -/
theorem claim_c4_counterexample :
    matchScore (hsCodeDatabase.headD emptyHSCode) "mug" "" "" "" = 50 ∧
    specRawScore (hsCodeDatabase.headD emptyHSCode) "mug" "" "" "" = 15 ∧
    (50 : Nat) ≠ 15 := by
  refine ⟨by decide, by decide, by decide⟩

/-- Claim C4 (amended): the raw score decomposes as `+50` per fixed
product-type keyword of the entry found in the title or description, `+20`
per material keyword found in the materials field (skipped entirely when
the materials field is empty), `+10` per category word pair matching by
equality or long-word containment, and `+5` per general keyword longer
than 3 characters found in the title — with no cap on the general
contribution. -/
theorem claim_c4_score_decomposition (e : HSCode)
    (titleLower descLower categoryLower materialsLower : String) :
    matchScore e titleLower descLower categoryLower materialsLower =
      50 * ptCount e titleLower descLower + 20 * matCount e materialsLower +
      10 * catCount e categoryLower + 5 * genCount e titleLower := by
  simp only [matchScore, ptCount, matCount, catCount, genCount]
  rw [foldl_ite_add_count, foldl_ite_nested_count]
  by_cases hm : materialsLower.data.isEmpty = true
  · rw [if_pos hm, if_pos hm, foldl_ite_add_count]
    ring
  · rw [if_neg hm, if_neg hm, foldl_ite_add_count, foldl_ite_add_count]
    ring

/-- Claim C5 counterexample: for the descriptor titled "mug" the matcher
pipeline survives with two candidates whose final confidence is 95 — above
the claimed upper clamp of 92. -/
theorem claim_c5_counterexample :
    (keywordPredictions pdMug).map (fun p => p.confidence) = [95, 95] ∧
    ¬((95 : Int) ≤ 92) := by
  refine ⟨by decide, by decide⟩

/-- Claim C5 (amended): the keyword matcher keeps only entries whose raw
score reaches the floor of 20, emits at most 5 predictions, clamps every
final confidence into `[35, 95]`, sorts the kept entries descending by raw
match score, and resolves ties by catalog declaration order (the sort is
stable on every score value). -/
theorem claim_c5_matcher_output (pd : ProductData) :
    (keywordPredictions pd).length ≤ 5 ∧
    (∀ p ∈ keywordPredictions pd, 35 ≤ p.confidence ∧ p.confidence ≤ 95) ∧
    (∀ s ∈ rankedScored (strLower pd.title) (strLower pd.description)
        (strLower pd.category) (strLower pd.materials), 20 ≤ s.matchScore) ∧
    List.Pairwise (fun a b => b.matchScore ≤ a.matchScore)
      (rankedScored (strLower pd.title) (strLower pd.description)
        (strLower pd.category) (strLower pd.materials)) ∧
    (∀ q : Nat,
      (rankedScored (strLower pd.title) (strLower pd.description)
          (strLower pd.category) (strLower pd.materials)).filter
        (fun s => decide (s.matchScore = q)) =
      ((scoredCatalog (strLower pd.title) (strLower pd.description)
          (strLower pd.category) (strLower pd.materials)).filter
        (fun s => decide (20 ≤ s.matchScore))).filter
        (fun s => decide (s.matchScore = q))) := by
  refine ⟨?_, ?_, ?_, ?_, ?_⟩
  · simp only [keywordPredictions, findMatchingHSCodes, List.length_map, List.enum_length]
    exact List.length_take_le _ _
  · intro p hp
    simp only [keywordPredictions] at hp
    rcases List.mem_map.mp hp with ⟨ie, _, rfl⟩
    exact ⟨(keywordConfidence_bounds pd ie.2 ie.1).1, (keywordConfidence_bounds pd ie.2 ie.1).2⟩
  · intro s hs
    rw [rankedScored] at hs
    have hmem := (mem_sortDescBy _ _ _).mp hs
    exact of_decide_eq_true (List.mem_filter.mp hmem).2
  · rw [rankedScored]
    exact pairwise_sortDescBy _ _
  · intro q
    rw [rankedScored]
    exact sortDescBy_filter_key (fun i : ScoredEntry => i.matchScore) q _

/-- Claim C5 witness: the matcher returns at most five predictions on a
concrete descriptor. -/
theorem claim_c5_witness : (keywordPredictions pdMug).length ≤ 5 :=
  (claim_c5_matcher_output pdMug).1
